import Mathlib

/-!
Verification development for the CI test-orchestration script
`scripts/ci_test_runner.py` (class `TestRunner` and function `main`).

The Python code is shallowly embedded:
* the nested JSON baseline dictionary becomes an association list of
  association lists of rational thresholds (`Baselines`);
* the two mutable booleans `failed_blocking` / `failed_non_blocking` on the
  `TestRunner` object become the explicit state record `RunState`;
* `subprocess.run`, which either raises `FileNotFoundError` or yields a
  completed process, becomes the sum type `InvocationOutcome`;
* the regular-expression searches of `_analyze_performance` become
  executable scanners over `List Char` (`searchFrom`, `matchMigrationAt`,
  `matchTimingAt`); since in each pattern the character classes of adjacent
  parts are disjoint, maximal-munch scanning coincides with the regex
  semantics of `re.search`;
* the uncaught exceptions (malformed JSON in `_load_baselines`,
  `FileNotFoundError` in the inline concurrency retry loop of `main`)
  become `Except Unit` results.
-/

/-- State of the two failure flags held by the `TestRunner` object
(`self.failed_blocking`, `self.failed_non_blocking`). -/
structure RunState where
  failed_blocking : Bool
  failed_non_blocking : Bool
deriving DecidableEq, Repr

/-- Result of one `subprocess.run` call: either the executable could not be
located (Python raises `FileNotFoundError`) or the process ran to completion
with an exit code and captured stdout. -/
inductive InvocationOutcome where
  | notFound
  | ran (exitCode : Int) (stdout : String)
deriving DecidableEq, Repr

/-- The nested baseline dictionary loaded from
`tests/data/performance_baseline.json`: metric group -> metric key ->
threshold in milliseconds. Thresholds are embedded as rationals. -/
abbrev Baselines := List (String × List (String × ℚ))

/-- `self.baselines.get(group, {})`. -/
def getGroup (b : Baselines) (g : String) : List (String × ℚ) :=
  (List.lookup g b).getD []

/-- `self.baselines.get(group, {}).get(key, default)`. -/
def getThreshold (b : Baselines) (g k : String) (d : ℚ) : ℚ :=
  (List.lookup k (getGroup b g)).getD d

/-- Migration limit: `baselines.get('migration_performance', {}).get('batch_20_users_max_ms', 30000)`. -/
def migrationLimit (b : Baselines) : ℚ :=
  getThreshold b "migration_performance" "batch_20_users_max_ms" 30000

/-- SHA3 limit: `baselines.get('hash_computation', {}).get('sha3_256_max_ms', 10)`. -/
def sha3Limit (b : Baselines) : ℚ :=
  getThreshold b "hash_computation" "sha3_256_max_ms" 10

/-- PBKDF2 limit: `baselines.get('hash_computation', {}).get('pbkdf2_max_ms', 100) * 1.5`
(the relaxation multiplier for slower CI environments). -/
def pbkdf2Limit (b : Baselines) : ℚ :=
  getThreshold b "hash_computation" "pbkdf2_max_ms" 100 * (1.5 : ℚ)

/-- `dropLit p cs` strips the literal character sequence `p` from the front of
`cs`, returning the remainder when every character matches. -/
def dropLit : List Char → List Char → Option (List Char)
  | [], cs => some cs
  | _ :: _, [] => none
  | p :: ps, c :: cs => if p = c then dropLit ps cs else none

/-- Splits a character list at the end of the maximal leading run of
characters satisfying `f` (maximal munch for `\d+` and similar). -/
def takeWhileSplit (f : Char → Bool) : List Char → List Char × List Char
  | [] => ([], [])
  | c :: cs =>
    if f c then
      let r := takeWhileSplit f cs
      (c :: r.1, r.2)
    else ([], c :: cs)

/-- Numeric value of a digit run, as `int(...)` computes it. -/
def digitsVal (ds : List Char) : Nat :=
  ds.foldl (fun a c => 10 * a + (c.toNat - 48)) 0

/-- Whitespace class of Python regular expressions. -/
def isPySpace (c : Char) : Bool :=
  c = ' ' || c = '\t' || c = '\n' || c = '\r' || c = '\x0b' || c = '\x0c'

/-- The fixed literal label of the migration pattern
`"Migration of 19 users took: (\d+)ms"`. -/
def migrationLabel : List Char := "Migration of 19 users took: ".toList

/-- Attempts to match `"Migration of 19 users took: (\d+)ms"` at the head of
`cs`, returning the captured integer on success. -/
def matchMigrationAt (cs : List Char) : Option Nat :=
  match dropLit migrationLabel cs with
  | none => none
  | some r1 =>
    let p := takeWhileSplit Char.isDigit r1
    if p.1.isEmpty then none
    else
      match dropLit ("ms".toList) p.2 with
      | none => none
      | some _ => some (digitsVal p.1)

/-- Attempts to match `label ++ "\s+\d+\s+iterations in\s+(\d+)ms"` at the
head of `cs` (the shared shape of the SHA3-256 and PBKDF2 patterns),
returning the captured integer on success. -/
def matchTimingAt (label : List Char) (cs : List Char) : Option Nat :=
  match dropLit label cs with
  | none => none
  | some r1 =>
    let sp1 := takeWhileSplit isPySpace r1
    if sp1.1.isEmpty then none
    else
      let d1 := takeWhileSplit Char.isDigit sp1.2
      if d1.1.isEmpty then none
      else
        let sp2 := takeWhileSplit isPySpace d1.2
        if sp2.1.isEmpty then none
        else
          match dropLit ("iterations in".toList) sp2.2 with
          | none => none
          | some r2 =>
            let sp3 := takeWhileSplit isPySpace r2
            if sp3.1.isEmpty then none
            else
              let d2 := takeWhileSplit Char.isDigit sp3.2
              if d2.1.isEmpty then none
              else
                match dropLit ("ms".toList) d2.2 with
                | none => none
                | some _ => some (digitsVal d2.1)

/-- `re.search` driver: tries the matcher at every position from the left and
returns the first successful capture. -/
def searchFrom (f : List Char → Option Nat) : List Char → Option Nat
  | [] => f []
  | c :: cs =>
    match f (c :: cs) with
    | some n => some n
    | none => searchFrom f cs

/-- `re.search(r"Migration of 19 users took: (\d+)ms", output)`. -/
def reSearchMigration (s : String) : Option Nat :=
  searchFrom matchMigrationAt s.toList

/-- `re.search(r"SHA3-256:\s+\d+\s+iterations in\s+(\d+)ms", output)`. -/
def reSearchSha3 (s : String) : Option Nat :=
  searchFrom (matchTimingAt ("SHA3-256:".toList)) s.toList

/-- `re.search(r"PBKDF2:\s+\d+\s+iterations in\s+(\d+)ms", output)`. -/
def reSearchPbkdf2 (s : String) : Option Nat :=
  searchFrom (matchTimingAt ("PBKDF2:".toList)) s.toList

/-- `TestRunner._check_metric`: flags a non-blocking failure when the actual
value exceeds the limit, otherwise leaves the state unchanged. -/
def check_metric (s : RunState) (actual limit : ℚ) : RunState :=
  if actual > limit then { s with failed_non_blocking := true } else s

/-- One `if match: ... _check_metric(...)` block of `_analyze_performance`. -/
def applyMetric (s : RunState) (res : Option Nat) (limit : ℚ) : RunState :=
  match res with
  | some a => check_metric s (a : ℚ) limit
  | none => s

/-- `TestRunner._analyze_performance`: runs the three pattern searches over
the captured stdout in order and checks each found sample against its
resolved limit. -/
def analyze_performance (b : Baselines) (s : RunState) (output : String) : RunState :=
  applyMetric
    (applyMetric
      (applyMetric s (reSearchMigration output) (migrationLimit b))
      (reSearchSha3 output) (sha3Limit b))
    (reSearchPbkdf2 output) (pbkdf2Limit b)

/-- `TestRunner.run_suite`: on `FileNotFoundError` flags a blocking failure
only when the suite is blocking; on a non-zero exit code flags the failure
scoped by `blocking`; on exit code `0` runs performance analysis when
requested. -/
def run_suite (b : Baselines) (s : RunState) (blocking check_performance : Bool)
    (o : InvocationOutcome) : RunState :=
  match o with
  | .notFound => if blocking then { s with failed_blocking := true } else s
  | .ran code out =>
    if code ≠ 0 then
      if blocking then { s with failed_blocking := true }
      else { s with failed_non_blocking := true }
    else
      if check_performance then analyze_performance b s out else s

/-- `max_retries = 3` in `main`. -/
def max_retries : Nat := 3

/-- Body of the concurrency retry loop `for i in range(max_retries)` of
`main`, recursing on the number of remaining iterations. `att i` is the
outcome of the `i`-th `subprocess.run`; a `FileNotFoundError` there is not
caught and aborts the run (`Except.error`). On success the loop breaks,
returning the number of attempts made; after the last failing attempt the
blocking flag is set. -/
def retry_go (att : Nat → InvocationOutcome) (s : RunState) (i : Nat) :
    Nat → Except Unit (RunState × Nat)
  | 0 => .ok (s, i)
  | rem + 1 =>
    match att i with
    | .notFound => .error ()
    | .ran code _ =>
      if code = 0 then .ok (s, i + 1)
      else if rem = 0 then .ok ({ s with failed_blocking := true }, i + 1)
      else retry_go att s (i + 1) rem

/-- The whole concurrency retry section of `main` (attempts indexed from 0,
`max_retries` iterations). -/
def retry_concurrency (att : Nat → InvocationOutcome) (s : RunState) :
    Except Unit (RunState × Nat) :=
  retry_go att s 0 max_retries

/-- Outcome classified as a failure by `run_suite` (missing executable or
non-zero exit code). -/
def outcomeFailed : InvocationOutcome → Bool
  | .notFound => true
  | .ran c _ => c != 0

/-- Outcome that ran and exited non-zero (a failed retry attempt that does
not crash the loop). -/
def ranNonzero : InvocationOutcome → Bool
  | .notFound => false
  | .ran c _ => c != 0

/-- One unit of work of the orchestration run: a directly-invoked suite with
its `blocking` / `check_performance` policy, or the retried concurrency
suite with its per-attempt outcomes. -/
inductive Step where
  | suite (blocking check_performance : Bool) (o : InvocationOutcome)
  | retried (att : Nat → InvocationOutcome)

/-- Executes a sequence of steps against a starting state, as `main` drives
`run_suite` calls and the inline retry loop. -/
def runSteps (b : Baselines) : List Step → RunState → Except Unit RunState
  | [], s => .ok s
  | .suite bl cp o :: rest, s => runSteps b rest (run_suite b s bl cp o)
  | .retried att :: rest, s =>
    match retry_concurrency att s with
    | .error e => .error e
    | .ok (s1, _) => runSteps b rest s1

/-- A step that ultimately fails in the blocking sense: a blocking suite
whose invocation failed, or a retried suite all of whose `max_retries`
attempts ran and exited non-zero. -/
def stepBlockingFail : Step → Bool
  | .suite bl _ o => bl && outcomeFailed o
  | .retried att => ranNonzero (att 0) && ranNonzero (att 1) && ranNonzero (att 2)

/-- Final verdict classification printed by `main`. -/
inductive Verdict where
  | success
  | unstable
  | failure
deriving DecidableEq, Repr

/-- The `if runner.failed_blocking / elif runner.failed_non_blocking / else`
cascade at the end of `main`. -/
def finalVerdict (s : RunState) : Verdict :=
  if s.failed_blocking then .failure
  else if s.failed_non_blocking then .unstable
  else .success

/-- Process exit status of `main`: `sys.exit(1)` only on the blocking
branch, `sys.exit(0)` on both others. -/
def finalExit (s : RunState) : Nat :=
  if s.failed_blocking then 1 else 0

/-- State of the baseline file on disk: absent, present but not valid JSON,
or present with parsed contents. -/
inductive FileState where
  | missing
  | malformed
  | wellFormed (b : Baselines)

/-- `TestRunner._load_baselines`: a missing file yields the empty dictionary
(with a warning print); a malformed file makes `json.load` raise, which is
uncaught (`Except.error`). -/
def load_baselines : FileState → Except Unit Baselines
  | .missing => .ok []
  | .malformed => .error ()
  | .wellFormed b => .ok b

/-- External inputs of one `main` run: the baseline file state, the
outcomes of the three directly-run suites (P1, P2, P3) and of the
concurrency retry attempts. -/
structure World where
  file : FileState
  o1 : InvocationOutcome
  o2 : InvocationOutcome
  o3 : InvocationOutcome
  concAttempts : Nat → InvocationOutcome

/-- The fixed descriptor sequence hard-coded in `main`: P1 and P2 blocking,
P3 non-blocking with performance checking, then the retried concurrency
suite. -/
def mainSteps (w : World) : List Step :=
  [Step.suite true false w.o1,
   Step.suite true false w.o2,
   Step.suite false true w.o3,
   Step.retried w.concAttempts]

/-- Whole-run model of `main`: load baselines (aborting on malformed JSON),
run the fixed suite sequence, and derive the exit status. -/
def mainRun (w : World) : Except Unit (RunState × Nat) :=
  match load_baselines w.file with
  | .error e => .error e
  | .ok b =>
    match runSteps b (mainSteps w) ⟨false, false⟩ with
    | .error e => .error e
    | .ok s => .ok (s, finalExit s)

/-! ### Helper lemmas shared by the claim theorems -/

theorem check_metric_fb (s : RunState) (a l : ℚ) :
    (check_metric s a l).failed_blocking = s.failed_blocking := by
  rw [check_metric]
  split <;> rfl

theorem check_metric_fnb (s : RunState) (a l : ℚ) :
    (check_metric s a l).failed_non_blocking = (s.failed_non_blocking || decide (a > l)) := by
  rw [check_metric]
  split <;> simp_all

theorem applyMetric_fb (s : RunState) (r : Option Nat) (l : ℚ) :
    (applyMetric s r l).failed_blocking = s.failed_blocking := by
  cases r with
  | none => rfl
  | some a => exact check_metric_fb s (a : ℚ) l

theorem applyMetric_fnb_mono (s : RunState) (r : Option Nat) (l : ℚ)
    (h : s.failed_non_blocking = true) :
    (applyMetric s r l).failed_non_blocking = true := by
  cases r with
  | none => exact h
  | some a =>
    show (check_metric s (a : ℚ) l).failed_non_blocking = true
    rw [check_metric_fnb, h]
    rfl

theorem analyze_fb (b : Baselines) (s : RunState) (out : String) :
    (analyze_performance b s out).failed_blocking = s.failed_blocking := by
  rw [analyze_performance, applyMetric_fb, applyMetric_fb, applyMetric_fb]

theorem analyze_fnb_mono (b : Baselines) (s : RunState) (out : String)
    (h : s.failed_non_blocking = true) :
    (analyze_performance b s out).failed_non_blocking = true := by
  rw [analyze_performance]
  exact applyMetric_fnb_mono _ _ _ (applyMetric_fnb_mono _ _ _ (applyMetric_fnb_mono _ _ _ h))

theorem run_suite_fb (b : Baselines) (s : RunState) (bl cp : Bool) (o : InvocationOutcome) :
    (run_suite b s bl cp o).failed_blocking = (s.failed_blocking || (bl && outcomeFailed o)) := by
  cases o with
  | notFound =>
    rw [run_suite, outcomeFailed]
    cases bl <;> simp
  | ran c out =>
    rw [run_suite, outcomeFailed]
    by_cases hc : c = 0
    · subst hc
      simp only [ne_eq, not_true_eq_false, if_false, bne_self_eq_false, Bool.and_false,
        Bool.or_false, ite_self]
      split
      · exact analyze_fb b s out
      · rfl
    · simp only [ne_eq, hc, not_false_eq_true, if_true]
      cases bl <;> simp [hc]

theorem run_suite_fnb_mono (b : Baselines) (s : RunState) (bl cp : Bool)
    (o : InvocationOutcome) (h : s.failed_non_blocking = true) :
    (run_suite b s bl cp o).failed_non_blocking = true := by
  cases o with
  | notFound =>
    rw [run_suite]
    cases bl <;> simpa
  | ran c out =>
    rw [run_suite]
    split
    · split <;> simp [h]
    · split
      · exact analyze_fnb_mono b s out h
      · exact h

theorem retry_concurrency_eq (att : Nat → InvocationOutcome) (s : RunState) :
    retry_concurrency att s =
      (match att 0 with
       | .notFound => .error ()
       | .ran c0 _ =>
         if c0 = 0 then .ok (s, 1)
         else
           match att 1 with
           | .notFound => .error ()
           | .ran c1 _ =>
             if c1 = 0 then .ok (s, 2)
             else
               match att 2 with
               | .notFound => .error ()
               | .ran c2 _ =>
                 if c2 = 0 then .ok (s, 3)
                 else .ok ({ s with failed_blocking := true }, 3)) := by
  rw [retry_concurrency, max_retries]
  rcases h0 : att 0 with _ | ⟨c0, o0⟩ <;>
    rcases h1 : att 1 with _ | ⟨c1, o1⟩ <;>
      rcases h2 : att 2 with _ | ⟨c2, o2⟩ <;>
        simp only [show (3 : Nat) = 2 + 1 from rfl, retry_go, h0, h1, h2,
          show (2 : Nat) = 1 + 1 from rfl, show ¬(2 = 0) from by decide,
          show ¬(1 = 0) from by decide, if_false] <;>
        split <;> simp [retry_go]

theorem retry_fb (att : Nat → InvocationOutcome) (s s2 : RunState) (n : Nat)
    (h : retry_concurrency att s = .ok (s2, n)) :
    s2.failed_blocking
        = (s.failed_blocking || (ranNonzero (att 0) && ranNonzero (att 1) && ranNonzero (att 2)))
      ∧ s2.failed_non_blocking = s.failed_non_blocking := by
  rw [retry_concurrency_eq] at h
  split at h
  · exact absurd h (by simp)
  · split at h
    · simp_all [ranNonzero]
    · split at h
      · exact absurd h (by simp)
      · split at h
        · simp_all [ranNonzero]
        · split at h
          · exact absurd h (by simp)
          · split at h
            · simp_all [ranNonzero]
            · simp only [Except.ok.injEq, Prod.mk.injEq] at h
              obtain ⟨rfl, rfl⟩ := h
              simp_all [ranNonzero]

theorem runSteps_fb (b : Baselines) (l : List Step) (s s2 : RunState)
    (h : runSteps b l s = .ok s2) :
    s2.failed_blocking = (s.failed_blocking || l.any stepBlockingFail) := by
  induction l generalizing s with
  | nil =>
    obtain rfl : s = s2 := by simpa [runSteps] using h
    simp
  | cons st rest ih =>
    cases st with
    | suite bl cp o =>
      rw [runSteps] at h
      rw [ih _ h, run_suite_fb]
      simp [stepBlockingFail, Bool.or_assoc]
    | retried att =>
      rw [runSteps] at h
      rcases hr : retry_concurrency att s with e | ⟨s1, m⟩ <;> rw [hr] at h
      · exact absurd h (by simp)
      · rw [ih _ h, (retry_fb att s s1 m hr).1]
        simp [stepBlockingFail, Bool.or_assoc]

theorem dropLit_isPrefix (p : List Char) :
    ∀ cs r, dropLit p cs = some r → p <+: cs := by
  induction p with
  | nil => intro cs r _; exact List.nil_prefix
  | cons a ps ih =>
    intro cs r h
    cases cs with
    | nil => exact absurd h (by simp [dropLit])
    | cons c cs2 =>
      rw [dropLit] at h
      split at h
      · next hac =>
        obtain ⟨t, ht⟩ := ih cs2 r h
        exact ⟨t, by rw [hac]; simp [ht]⟩
      · exact absurd h (by simp)

theorem searchFrom_suffix (f : List Char → Option Nat) :
    ∀ l n, searchFrom f l = some n → ∃ t, t <:+ l ∧ f t = some n := by
  intro l
  induction l with
  | nil => intro n h; exact ⟨[], List.suffix_refl [], h⟩
  | cons c cs ih =>
    intro n h
    rw [searchFrom] at h
    rcases hf : f (c :: cs) with _ | m <;> rw [hf] at h
    · obtain ⟨t, ht, hft⟩ := ih n (by simpa using h)
      exact ⟨t, ht.trans (List.suffix_cons c cs), hft⟩
    · obtain rfl : m = n := by simpa using h
      exact ⟨c :: cs, List.suffix_refl _, hf⟩

theorem matchMigrationAt_label (cs : List Char) (n : Nat)
    (h : matchMigrationAt cs = some n) : migrationLabel <+: cs := by
  rcases hd : dropLit migrationLabel cs with _ | r
  · rw [matchMigrationAt, hd] at h
    exact absurd h (by simp)
  · exact dropLit_isPrefix _ _ _ hd

theorem sha3_999_regresses :
    analyze_performance [] ⟨false, false⟩ "SHA3-256: 1 iterations in 999ms" = ⟨false, true⟩ := by
  rw [analyze_performance]
  rw [show reSearchMigration "SHA3-256: 1 iterations in 999ms" = none from by decide]
  rw [show reSearchSha3 "SHA3-256: 1 iterations in 999ms" = some 999 from by decide]
  rw [show reSearchPbkdf2 "SHA3-256: 1 iterations in 999ms" = none from by decide]
  simp only [applyMetric, check_metric, sha3Limit, getThreshold, getGroup, List.lookup]
  norm_num

/-! ### Claim theorems -/

/-- C1: for every run over any descriptor sequence that completes, the exit
status is 1 exactly when `failed_blocking` is set at the end of the run,
`failed_blocking` is set exactly when some blocking step ultimately failed
(after exhausting its retries), and both the SUCCESS and the UNSTABLE
verdict exit with status 0. -/
theorem C1_exit_status (b : Baselines) (steps : List Step) (s : RunState)
    (h : runSteps b steps ⟨false, false⟩ = .ok s) :
    s.failed_blocking = steps.any stepBlockingFail ∧
    (finalExit s = 1 ↔ s.failed_blocking = true) ∧
    (finalVerdict s = Verdict.success → finalExit s = 0) ∧
    (finalVerdict s = Verdict.unstable → finalExit s = 0) := by
  have hfb := runSteps_fb b steps _ _ h
  simp only [Bool.false_or] at hfb
  refine ⟨hfb, ?_, ?_, ?_⟩
  · rw [finalExit]
    cases hs : s.failed_blocking <;> simp
  · intro hv
    rw [finalExit]
    rcases hs : s.failed_blocking
    · rfl
    · rw [finalVerdict, hs] at hv
      simp at hv
  · intro hv
    rw [finalExit]
    rcases hs : s.failed_blocking
    · rfl
    · rw [finalVerdict, hs] at hv
      simp at hv

/-- C1 witness: a single failing blocking suite makes the final
`failed_blocking` flag agree with the step classification. -/
theorem C1_exit_status_witness :
    (⟨true, false⟩ : RunState).failed_blocking
      = List.any [Step.suite true false (InvocationOutcome.ran 1 "")] stepBlockingFail :=
  (C1_exit_status [] [Step.suite true false (InvocationOutcome.ran 1 "")] ⟨true, false⟩ rfl).1

/-- C2 counterexample: a non-blocking suite whose executable is missing sets
neither flag (the claim requires `failed_non_blocking` to be set), and in the
retry-controller path a missing executable is not caught at all — the run
crashes instead of recording a failure. -/
theorem C2_counterexample :
    (run_suite [] ⟨false, false⟩ false false InvocationOutcome.notFound).failed_non_blocking
        = false ∧
    retry_concurrency (fun _ => InvocationOutcome.notFound) ⟨false, false⟩ = .error () :=
  ⟨rfl, rfl⟩

/-- C2 amended: in `run_suite` a missing executable is caught and reported as
a failure, but it sets `failed_blocking` only when the suite is blocking and
sets no flag at all when the suite is non-blocking; in the retry-controller
path of `main` the condition is not caught and propagates as a crash. -/
theorem C2_not_found_scoping (b : Baselines) (s : RunState) (bl cp : Bool)
    (att : Nat → InvocationOutcome) :
    run_suite b s bl cp InvocationOutcome.notFound
        = { s with failed_blocking := s.failed_blocking || bl } ∧
    (att 0 = InvocationOutcome.notFound → retry_concurrency att s = .error ()) := by
  constructor
  · rw [run_suite]
    cases bl <;> simp
  · intro h0
    rw [retry_concurrency_eq, h0]

/-- C2 witness: the retry path crashes when the very first attempt cannot
locate the executable. -/
theorem C2_not_found_scoping_witness :
    retry_concurrency (fun _ => InvocationOutcome.notFound) ⟨true, true⟩ = .error () :=
  (C2_not_found_scoping [] ⟨true, true⟩ true true (fun _ => InvocationOutcome.notFound)).2 rfl

/-- C3 counterexample: a performance-checked blocking suite that exits
non-zero with a grossly regressing PBKDF2 measurement on stdout does not set
`failed_non_blocking` (the claim requires the failing regression verdict to
be folded in regardless of the exit code). -/
theorem C3_counterexample :
    (run_suite [] ⟨false, false⟩ true true
        (InvocationOutcome.ran 1 "PBKDF2: 1000 iterations in 99999ms")).failed_non_blocking
      = false :=
  rfl

/-- C3 amended: for a performance-checked suite, the captured stdout is
routed through metric extraction and regression evaluation only when the
exit code is zero, and there every failing regression verdict sets
`failed_non_blocking`. -/
theorem C3_perf_only_on_success (b : Baselines) (s : RunState) (bl : Bool) (out : String) :
    run_suite b s bl true (InvocationOutcome.ran 0 out) = analyze_performance b s out ∧
    (∀ a l, l < a → (check_metric s a l).failed_non_blocking = true) := by
  refine ⟨rfl, ?_⟩
  intro a l hl
  rw [check_metric, if_pos hl]

/-- C3 witness: a metric value above its limit flags a non-blocking
failure. -/
theorem C3_perf_only_on_success_witness :
    (check_metric ⟨false, false⟩ 200 150).failed_non_blocking = true :=
  (C3_perf_only_on_success [] ⟨false, false⟩ true "").2 200 150 (by norm_num)

/-- C4: under the concurrency retry loop (`max_retries = 3`), attempts run in
order and stop at the first zero exit code, leaving the state unchanged
(success on any attempt contributes nothing), while `failed_blocking` is set
exactly when all three attempts exit non-zero. -/
theorem C4_retry_first_success (e : Nat → Int) (out : Nat → String) (s : RunState) :
    (∀ k, k < max_retries → e k = 0 → (∀ j, j < k → e j ≠ 0) →
      retry_concurrency (fun i => InvocationOutcome.ran (e i) (out i)) s = .ok (s, k + 1)) ∧
    ((∀ k, k < max_retries → e k ≠ 0) →
      retry_concurrency (fun i => InvocationOutcome.ran (e i) (out i)) s
        = .ok ({ s with failed_blocking := true }, max_retries)) := by
  constructor
  · intro k hk hk0 hprev
    have hk3 : k < 3 := hk
    rw [retry_concurrency_eq]
    interval_cases k
    · simp [hk0]
    · have h0 : e 0 ≠ 0 := hprev 0 (by omega)
      simp [hk0, h0]
    · have h0 : e 0 ≠ 0 := hprev 0 (by omega)
      have h1 : e 1 ≠ 0 := hprev 1 (by omega)
      simp [hk0, h0, h1]
  · intro hall
    have h0 := hall 0 (by decide)
    have h1 := hall 1 (by decide)
    have h2 := hall 2 (by decide)
    rw [retry_concurrency_eq]
    simp [h0, h1, h2, max_retries]

/-- C4 witness: failure on attempt 1 followed by success on attempt 2 stops
after two attempts with no flag set. -/
theorem C4_retry_first_success_witness :
    retry_concurrency
        (fun i => InvocationOutcome.ran (if i = 0 then 1 else 0) "") ⟨false, false⟩
      = .ok (⟨false, false⟩, 2) :=
  (C4_retry_first_success (fun i => if i = 0 then 1 else 0) (fun _ => "") ⟨false, false⟩).1
    1 (by decide) (by decide)
    (fun j hj => by interval_cases j; decide)

/-- C5: the migration pattern matches only the exact literal count 19 — any
successful search contains the verbatim label `"Migration of 19 users took: "`
as an infix, the text with count 20 yields no sample, and the text with
count 19 and value 500 evaluated against a configured threshold of 30000
yields a passing verdict (no flag set). -/
theorem C5_migration_exact_literal :
    (∀ s n, reSearchMigration s = some n → migrationLabel <:+: s.toList) ∧
    reSearchMigration "Migration of 20 users took: 500ms" = none ∧
    reSearchMigration "Migration of 19 users took: 500ms" = some 500 ∧
    analyze_performance [("migration_performance", [("batch_20_users_max_ms", (30000 : ℚ))])]
        ⟨false, false⟩ "Migration of 19 users took: 500ms" = ⟨false, false⟩ := by
  refine ⟨?_, by decide, by decide, ?_⟩
  · intro s n h
    obtain ⟨t, ht, hm⟩ := searchFrom_suffix matchMigrationAt (s.toList) n h
    exact ((matchMigrationAt_label t n hm).isInfix).trans ht.isInfix
  · rw [analyze_performance]
    rw [show reSearchMigration "Migration of 19 users took: 500ms" = some 500 from by decide]
    rw [show reSearchSha3 "Migration of 19 users took: 500ms" = none from by decide]
    rw [show reSearchPbkdf2 "Migration of 19 users took: 500ms" = none from by decide]
    simp only [applyMetric, check_metric, migrationLimit, getThreshold, getGroup, List.lookup]
    norm_num

/-- C5 witness: a successful migration search really contains the literal
count-19 label. -/
theorem C5_migration_exact_literal_witness :
    migrationLabel <:+: ("Migration of 19 users took: 7ms".toList) :=
  C5_migration_exact_literal.1 "Migration of 19 users took: 7ms" 7 (by decide)

/-- C6: the 1.5 relaxation multiplier applies to the resolved PBKDF2
threshold only (SHA3 and migration thresholds are unrelaxed), the metric
check classifies pass as value ≤ limit, and with a configured PBKDF2
threshold of 100 a captured value of 140 passes (140 ≤ 150) while 160 fails
(160 > 150). -/
theorem C6_pbkdf2_relaxation (t a l : ℚ) (s : RunState) :
    pbkdf2Limit [("hash_computation", [("pbkdf2_max_ms", t)])] = t * (3 / 2) ∧
    sha3Limit [("hash_computation", [("sha3_256_max_ms", t)])] = t ∧
    migrationLimit [("migration_performance", [("batch_20_users_max_ms", t)])] = t ∧
    (check_metric s a l).failed_non_blocking = (s.failed_non_blocking || decide (a > l)) ∧
    analyze_performance [("hash_computation", [("pbkdf2_max_ms", (100 : ℚ))])] ⟨false, false⟩
        "PBKDF2: 1000 iterations in 140ms" = ⟨false, false⟩ ∧
    (analyze_performance [("hash_computation", [("pbkdf2_max_ms", (100 : ℚ))])] ⟨false, false⟩
        "PBKDF2: 1000 iterations in 160ms").failed_non_blocking = true := by
  refine ⟨?_, ?_, ?_, check_metric_fnb s a l, ?_, ?_⟩
  · simp only [pbkdf2Limit, getThreshold, getGroup, List.lookup]
    norm_num
  · simp [sha3Limit, getThreshold, getGroup, List.lookup]
  · simp [migrationLimit, getThreshold, getGroup, List.lookup]
  · rw [analyze_performance]
    rw [show reSearchMigration "PBKDF2: 1000 iterations in 140ms" = none from by decide]
    rw [show reSearchSha3 "PBKDF2: 1000 iterations in 140ms" = none from by decide]
    rw [show reSearchPbkdf2 "PBKDF2: 1000 iterations in 140ms" = some 140 from by decide]
    simp only [applyMetric, check_metric, pbkdf2Limit, getThreshold, getGroup, List.lookup]
    norm_num
  · rw [analyze_performance]
    rw [show reSearchMigration "PBKDF2: 1000 iterations in 160ms" = none from by decide]
    rw [show reSearchSha3 "PBKDF2: 1000 iterations in 160ms" = none from by decide]
    rw [show reSearchPbkdf2 "PBKDF2: 1000 iterations in 160ms" = some 160 from by decide]
    simp only [applyMetric, check_metric, pbkdf2Limit, getThreshold, getGroup, List.lookup]
    norm_num

/-- C7: a missing baseline file loads as the empty configuration (every
threshold lookup then resolves to its metric-specific default), while a
malformed baseline file aborts the whole run before any suite executes —
`mainRun` returns the load error, independent of every suite outcome. -/
theorem C7_baseline_loading (w : World) :
    (w.file = FileState.malformed → mainRun w = .error ()) ∧
    load_baselines FileState.missing = .ok [] ∧
    (∀ g k d, getThreshold [] g k d = d) ∧
    migrationLimit [] = 30000 ∧ sha3Limit [] = 10 ∧ pbkdf2Limit [] = 150 := by
  refine ⟨?_, rfl, fun g k d => rfl, rfl, rfl, ?_⟩
  · intro hf
    rw [mainRun, hf]
    rfl
  · rw [pbkdf2Limit]
    norm_num [getThreshold, getGroup]

/-- C7 witness: with a malformed baseline file the run aborts regardless of
the suite outcomes supplied. -/
theorem C7_baseline_loading_witness :
    mainRun ⟨FileState.malformed, InvocationOutcome.notFound, InvocationOutcome.notFound,
        InvocationOutcome.notFound, fun _ => InvocationOutcome.notFound⟩ = .error () :=
  (C7_baseline_loading _).1 rfl

/-- C8: both `RunState` flags are mutated monotonically — every suite
invocation, every metric check and the whole retry loop can only turn a flag
from false to true, never reset one. -/
theorem C8_flags_monotone :
    (∀ b s bl cp o, s.failed_blocking = true → (run_suite b s bl cp o).failed_blocking = true) ∧
    (∀ b s bl cp o,
      s.failed_non_blocking = true → (run_suite b s bl cp o).failed_non_blocking = true) ∧
    (∀ s a l, s.failed_blocking = true → (check_metric s a l).failed_blocking = true) ∧
    (∀ s a l, s.failed_non_blocking = true → (check_metric s a l).failed_non_blocking = true) ∧
    (∀ att s s2 n, retry_concurrency att s = .ok (s2, n) →
      (s.failed_blocking = true → s2.failed_blocking = true) ∧
      s2.failed_non_blocking = s.failed_non_blocking) := by
  refine ⟨?_, run_suite_fnb_mono, ?_, ?_, ?_⟩
  · intro b s bl cp o h
    rw [run_suite_fb, h]
    rfl
  · intro s a l h
    rw [check_metric_fb]
    exact h
  · intro s a l h
    rw [check_metric_fnb, h]
    rfl
  · intro att s s2 n h
    obtain ⟨h1, h2⟩ := retry_fb att s s2 n h
    exact ⟨fun hs => by rw [h1, hs]; rfl, h2⟩

/-- C8 witness: a metric check on a state with `failed_blocking` already set
keeps it set. -/
theorem C8_flags_monotone_witness :
    (check_metric ⟨true, false⟩ 5 3).failed_blocking = true :=
  C8_flags_monotone.2.2.1 ⟨true, false⟩ 5 3 rfl

/-- C9: a performance regression sets only `failed_non_blocking` —
`check_metric` and the whole performance analysis leave `failed_blocking`
unchanged, and a run in which no blocking step ultimately fails exits with
status 0 no matter which regressions occurred. -/
theorem C9_regression_frame :
    (∀ s a l, (check_metric s a l).failed_blocking = s.failed_blocking) ∧
    (∀ b s out, (analyze_performance b s out).failed_blocking = s.failed_blocking) ∧
    (∀ b steps s2, runSteps b steps ⟨false, false⟩ = .ok s2 →
      steps.any stepBlockingFail = false → finalExit s2 = 0) := by
  refine ⟨check_metric_fb, analyze_fb, ?_⟩
  intro b steps s2 h hb
  have hfb := runSteps_fb b steps _ _ h
  rw [hb] at hfb
  simp only [Bool.false_or, Bool.or_false] at hfb
  rw [finalExit, hfb]
  rfl

/-- C9 witness: a run whose only suite passes but regresses the SHA3 metric
(999ms against the default 10ms limit) still exits 0. -/
theorem C9_regression_frame_witness : finalExit ⟨false, true⟩ = 0 :=
  C9_regression_frame.2.2 []
    [Step.suite false true (InvocationOutcome.ran 0 "SHA3-256: 1 iterations in 999ms")]
    ⟨false, true⟩
    (by
      show Except.ok (run_suite [] ⟨false, false⟩ false true
          (InvocationOutcome.ran 0 "SHA3-256: 1 iterations in 999ms"))
        = Except.ok (⟨false, true⟩ : RunState)
      rw [show run_suite [] ⟨false, false⟩ false true
            (InvocationOutcome.ran 0 "SHA3-256: 1 iterations in 999ms")
          = analyze_performance [] ⟨false, false⟩ "SHA3-256: 1 iterations in 999ms" from rfl,
        sha3_999_regresses])
    rfl

/-- C10: for a performance-checked suite whose invocation exits non-zero, no
metric extraction or regression evaluation is performed on its stdout — the
result depends only on the `blocking` flag, even if the stdout contains
recognizable metric patterns. -/
theorem C10_no_analysis_on_failure (b : Baselines) (s : RunState) (bl cp : Bool)
    (code : Int) (out : String) (h : code ≠ 0) :
    run_suite b s bl cp (InvocationOutcome.ran code out)
      = (if bl then { s with failed_blocking := true }
         else { s with failed_non_blocking := true }) := by
  rw [run_suite, if_pos h]

/-- C10 witness: a failing performance-checked suite with a wildly
regressing SHA3 measurement on stdout only records the non-blocking suite
failure; the measurement is never analyzed. -/
theorem C10_no_analysis_on_failure_witness :
    run_suite [] ⟨false, false⟩ false true
        (InvocationOutcome.ran 1 "SHA3-256: 1 iterations in 999ms")
      = ⟨false, true⟩ :=
  C10_no_analysis_on_failure [] ⟨false, false⟩ false true 1
    "SHA3-256: 1 iterations in 999ms" (by decide)
